import Mathlib

/-!
Verification of the change-detection and alerting core of the
FIS situational-awareness system.

The Lean definitions below are a shallow embedding of the Python sources
`change_detector.py` (class `ChangeDetector`) and `alert_manager.py`
(class `AlertManager`):

* Python dict values appearing inside an entity's `data` mapping are
  modelled by `Val` (strings, integers, and `None`); a `data` mapping is
  an insertion-ordered association list `Dict` with Python dict update
  semantics (`dinsert`).
* `uuid.uuid4()` and `datetime.now(...)`, the only sources of
  nondeterminism in `ChangeDetector._create_change_record`, are modelled
  by an explicit supply `gen : Nat -> Stamp` handing the i-th created
  record its identifier and timestamp.
* Input entities are dicts `{entity_type, entity_id, data}`.  `Entity`
  models an entity carrying all three keys (the input shape of the
  detector's contract); `RawEntity` models an arbitrary input dict where
  any of the three keys may be missing, and `detectChangesE` is the
  corresponding translation in the `Except` monad, a missing key raising
  `KeyError` exactly where the Python code indexes the dict.
-/

/-- A Python value stored in an entity `data` mapping: a string, an
integer, or `None`.  (Nested containers never influence the code paths
verified here beyond equality tests, which `DecidableEq` provides.) -/
inductive Val where
  | vStr : String → Val
  | vInt : Int → Val
  | vNone : Val
deriving DecidableEq

open Val

/-- `str(v)` of a Python value, as used in f-string interpolation. -/
def pyStr : Val → String
  | vStr s => s
  | vInt n => toString n
  | vNone => "None"

/-- Python truthiness of a value (`if source:` / `if url:`). -/
def valTruthy : Val → Bool
  | vStr s => !s.isEmpty
  | vInt n => n != 0
  | vNone => false

/-- A Python dict with string keys: insertion-ordered association list,
keys unique by construction via `dinsert`. -/
abbrev Dict := List (String × Val)

/-- Lookup of the first binding of key `k`; on a genuine dict (unique
keys) this is the dict access `d[k]` when present. -/
def dget? {K V : Type} [DecidableEq K] : List (K × V) → K → Option V
  | [], _ => none
  | (k', v) :: rest, k => if k' = k then some v else dget? rest k

/-- Python `d.get(k, dflt)`. -/
def dgetD (d : Dict) (k : String) (dflt : Val) : Val := (dget? d k).getD dflt

/-- Python `d.get(k)` (default `None`). -/
def pyGet (d : Dict) (k : String) : Val := dgetD d k vNone

/-- Python dict assignment `d[k] = v`: replaces the value at an existing
key in place, otherwise appends the new binding at the end. -/
def dinsert {K V : Type} [DecidableEq K] : List (K × V) → K → V → List (K × V)
  | [], k, v => [(k, v)]
  | (k', v') :: rest, k, v =>
      if k' = k then (k, v) :: rest else (k', v') :: dinsert rest k v

/-- Python `bool(key in d)` for the association-list dicts. -/
def hasKey {K V : Type} [DecidableEq K] (m : List (K × V)) (k : K) : Bool :=
  (dget? m k).isSome

/-- Python `x or y` applied to an optional dict and a dict fallback:
`None` and the empty dict are falsy. -/
def orD (a : Option Dict) (b : Dict) : Dict :=
  match a with
  | some d => if d.isEmpty then b else d
  | none => b

/-! ## Significance scoring (`ChangeDetector._calculate_significance`) -/

/-- Base scores by entity type (`entity_scores.get(entity_type, 10)`). -/
def entityBaseScore (entity_type : String) : Int :=
  if entity_type = "stakeholder" then 30
  else if entity_type = "program" then 25
  else if entity_type = "risk" then 35
  else if entity_type = "timeline" then 20
  else if entity_type = "governance" then 25
  else if entity_type = "external_event" then 40
  else 10

/-- Modifier based on change type. -/
def changeTypeModifier (change_type : String) : Int :=
  if change_type = "added" then 15
  else if change_type = "removed" then 20
  else if change_type = "modified" then 10
  else 0

/-- Stakeholder modifier: `role = (new_value or previous_value or {}).get("role", "")`. -/
def stakeholderRoleBonus (previous_value new_value : Option Dict) : Int :=
  let role := dgetD (orD new_value (orD previous_value [])) "role" (vStr "")
  if role ∈ [vStr "CEO", vStr "CFO", vStr "CTO"] then 40
  else if role ∈ [vStr "Board Chairman", vStr "Board Member"] then 35
  else if role ∈ [vStr "Executive Sponsor", vStr "AI Program Lead"] then 20
  else 0

/-- Program modifier: fires only when `field_changed == "status"` and the
new status read from `(new_value or {})` is a degradation. -/
def programStatusBonus (new_value : Option Dict) (field_changed : Option String) : Int :=
  if field_changed = some "status" then
    let new_status := dgetD (orD new_value []) "status" (vStr "")
    if new_status ∈ [vStr "Blocked", vStr "At Risk"] then 30 else 0
  else 0

/-- Risk modifier: severity read from `(new_value or {})` only. -/
def riskSeverityBonus (new_value : Option Dict) : Int :=
  let severity := dgetD (orD new_value []) "severity" (vStr "")
  if severity = vStr "Critical" then 40
  else if severity = vStr "High" then 25
  else 0

/-- External-event modifier: event type read from `(new_value or {})`. -/
def externalEventBonus (new_value : Option Dict) : Int :=
  let event_type := dgetD (orD new_value []) "event_type" (vStr "")
  if event_type ∈ [vStr "M&A", vStr "Executive Change"] then 40
  else if event_type ∈ [vStr "SEC Filing (8-K)", vStr "Regulatory Action"] then 35
  else if event_type ∈ [vStr "SEC Filing (10-K)", vStr "SEC Filing (10-Q)"] then 15
  else 0

/-- Bucketing of the final score into a significance level. -/
def bucketLevel (score : Int) : String :=
  if score ≥ 75 then "CRITICAL"
  else if score ≥ 60 then "HIGH"
  else if score ≥ 40 then "MEDIUM"
  else "LOW"

/-- `ChangeDetector._calculate_significance`: returns `(score, level)`. -/
def calculateSignificance (entity_type change_type : String)
    (previous_value new_value : Option Dict) (field_changed : Option String) :
    Int × String :=
  let s0 := entityBaseScore entity_type
  let s1 := s0 + changeTypeModifier change_type
  let s2 := s1 + (if entity_type = "stakeholder" then
      stakeholderRoleBonus previous_value new_value else 0)
  let s3 := s2 + (if entity_type = "program" then
      programStatusBonus new_value field_changed else 0)
  let s4 := s3 + (if entity_type = "risk" then
      riskSeverityBonus new_value else 0)
  let s5 := s4 + (if entity_type = "external_event" then
      externalEventBonus new_value else 0)
  let score := min s5 100
  (score, bucketLevel score)

/-! ## Rationale generation (`ChangeDetector._generate_rationale`) -/

/-- Fallback rationale used when no template matches. -/
def defaultRationale (entity_type : String) : String :=
  s!"Material change detected in {entity_type}. Review for potential program impact."

/-- `ChangeDetector._generate_rationale`.  The `score` and `level`
arguments are accepted (as in the source) but unused by every template. -/
def generateRationale (entity_type change_type : String)
    (previous_value new_value : Option Dict) (field_changed : Option String)
    (_score : Int) (_level : String) : String :=
  if entity_type = "stakeholder" then
    let role := pyStr (dgetD (orD new_value (orD previous_value [])) "role" (vStr "Unknown"))
    let name := pyStr (dgetD (orD new_value (orD previous_value [])) "name" (vStr "Unknown"))
    if change_type = "added" then
      s!"{role} {name} added to FIS organization. C-Suite and board changes may signal strategic shifts."
    else if change_type = "removed" then
      s!"{role} {name} removed from FIS organization. Leadership departures may indicate organizational changes."
    else if change_type = "modified" ∧ field_changed = some "role" then
      let prevRole := pyStr (dgetD (orD previous_value []) "role" (vStr "Unknown"))
      s!"{name} role changed from {prevRole} to {role}. Leadership restructuring may impact programs."
    else defaultRationale entity_type
  else if entity_type = "program" then
    if change_type = "modified" ∧ field_changed = some "status" then
      let name := pyStr (dgetD (orD new_value (orD previous_value [])) "name" (vStr "Unknown"))
      let prevStatus := pyStr (dgetD (orD previous_value []) "status" (vStr "Unknown"))
      let newStatus := pyStr (dgetD (orD new_value []) "status" (vStr "Unknown"))
      s!"Program {name} status changed from {prevStatus} to {newStatus}. This may require immediate attention from program leadership."
    else defaultRationale entity_type
  else if entity_type = "risk" then
    if change_type = "added" then
      let severity := pyStr (dgetD (orD new_value (orD previous_value [])) "severity" (vStr "Unknown"))
      s!"New {severity} risk detected. This may require immediate attention from program leadership."
    else if change_type = "modified" ∧ field_changed = some "severity" then
      let newSeverity := pyStr (pyGet (orD new_value []) "severity")
      s!"Risk severity changed to {newSeverity}. This may require immediate attention from program leadership."
    else defaultRationale entity_type
  else if entity_type = "external_event" then
    let eventType := pyStr (dgetD (orD new_value []) "event_type" (vStr "Unknown"))
    let title := pyStr (dgetD (orD new_value []) "title" (vStr "Unknown"))
    s!"External event detected: {eventType} - {title}. This may impact FIS strategic direction or market position."
  else if entity_type = "timeline" then
    if change_type = "modified" ∧ field_changed = some "status" then
      let milestone := pyStr (dgetD (orD new_value (orD previous_value [])) "milestone" (vStr "Unknown"))
      let newStatus := pyStr (dgetD (orD new_value []) "status" (vStr "Unknown"))
      s!"Timeline milestone \x27{milestone}\x27 status changed to {newStatus}. This may impact program delivery schedule."
    else defaultRationale entity_type
  else defaultRationale entity_type

/-! ## Change records (`ChangeDetector._create_change_record`) -/

/-- Identifier/timestamp pair produced by `uuid.uuid4()` and
`datetime.now(timezone.utc)` for one created record. -/
structure Stamp where
  uuid : Nat
  time : Int
deriving DecidableEq

/-- The `ChangeRecord` pydantic model (`models.py`). -/
structure ChangeRecord where
  change_id : Nat
  entity_type : String
  entity_id : String
  change_type : String
  previous_value : Option Dict
  new_value : Option Dict
  field_changed : Option String
  significance_score : Int
  significance_level : String
  rationale : String
  change_timestamp : Int
deriving DecidableEq

/-- Arguments of one `_create_change_record` call inside `detect_changes`. -/
structure ChangeArgs where
  entity_type : String
  entity_id : String
  change_type : String
  previous_value : Option Dict
  new_value : Option Dict
  field_changed : Option String
deriving DecidableEq

/-- `ChangeDetector._create_change_record`, with the fresh uuid/timestamp
supplied explicitly as `st`. -/
def createChangeRecord (st : Stamp) (a : ChangeArgs) : ChangeRecord :=
  let sl := calculateSignificance a.entity_type a.change_type
      a.previous_value a.new_value a.field_changed
  { change_id := st.uuid
    entity_type := a.entity_type
    entity_id := a.entity_id
    change_type := a.change_type
    previous_value := a.previous_value
    new_value := a.new_value
    field_changed := a.field_changed
    significance_score := sl.1
    significance_level := sl.2
    rationale := generateRationale a.entity_type a.change_type
      a.previous_value a.new_value a.field_changed sl.1 sl.2
    change_timestamp := st.time }

/-! ## The detector (`ChangeDetector.detect_changes`) -/

/-- An input entity carrying the three keys the detector reads
(`{entity_type, entity_id, data}`). -/
structure Entity where
  entity_type : String
  entity_id : String
  data : Dict
deriving DecidableEq

/-- The lookup key `(entity["entity_type"], entity["entity_id"])`. -/
def entityKey (e : Entity) : String × String := (e.entity_type, e.entity_id)

/-- `ChangeDetector._build_entity_map`: dict keyed by
`(entity_type, entity_id)` with last-write-wins on duplicate keys. -/
def buildEntityMap (entities : List Entity) : List ((String × String) × Entity) :=
  entities.foldl (fun m e => dinsert m (entityKey e) e) []

/-- The volatile fields excluded from comparison. -/
def volatileFields : List String := ["last_seen", "last_updated", "source"]

/-- `ChangeDetector._detect_field_changes`: walks the fields of `current`
(in order), records `(previous.get(f), current[f])` for each non-volatile
field whose value differs, into a dict keyed by field name. -/
def detectFieldChanges (previous current : Dict) : List (String × (Val × Val)) :=
  current.foldl (fun changes fv =>
    let prev_value := pyGet previous fv.1
    if prev_value ≠ fv.2 ∧ fv.1 ∉ volatileFields then
      dinsert changes fv.1 (prev_value, fv.2)
    else changes) []

/-- The addition loop of `detect_changes`. -/
def addedArgs (current_map previous_map : List ((String × String) × Entity)) :
    List ChangeArgs :=
  (current_map.filter (fun p => ! hasKey previous_map p.1)).map (fun p =>
    { entity_type := p.2.entity_type
      entity_id := p.2.entity_id
      change_type := "added"
      previous_value := none
      new_value := some p.2.data
      field_changed := none })

/-- The removal loop of `detect_changes`. -/
def removedArgs (current_map previous_map : List ((String × String) × Entity)) :
    List ChangeArgs :=
  (previous_map.filter (fun p => ! hasKey current_map p.1)).map (fun p =>
    { entity_type := p.2.entity_type
      entity_id := p.2.entity_id
      change_type := "removed"
      previous_value := some p.2.data
      new_value := none
      field_changed := none })

/-- The modification loop of `detect_changes`: one record per entry of
`_detect_field_changes`, payloads the singleton dicts `{field: value}`. -/
def modifiedArgs (current_map previous_map : List ((String × String) × Entity)) :
    List ChangeArgs :=
  current_map.flatMap (fun p =>
    match dget? previous_map p.1 with
    | some prev_entity =>
        (detectFieldChanges prev_entity.data p.2.data).map (fun fc =>
          { entity_type := p.2.entity_type
            entity_id := p.2.entity_id
            change_type := "modified"
            previous_value := some [(fc.1, fc.2.1)]
            new_value := some [(fc.1, fc.2.2)]
            field_changed := some fc.1 })
    | none => [])

/-- The `_create_change_record` call sites of one `detect_changes` run,
in execution order: additions, then removals, then modifications. -/
def changeArgsList (current_entities previous_entities : List Entity) : List ChangeArgs :=
  let current_map := buildEntityMap current_entities
  let previous_map := buildEntityMap previous_entities
  addedArgs current_map previous_map
    ++ removedArgs current_map previous_map
    ++ modifiedArgs current_map previous_map

/-- Hands the i-th created record the i-th identifier/timestamp of the
supply `gen`, in creation order. -/
def stampList (gen : Nat → Stamp) : List ChangeArgs → List ChangeRecord
  | [] => []
  | a :: rest => createChangeRecord (gen 0) a :: stampList (fun i => gen (i + 1)) rest

/-- `ChangeDetector.detect_changes` on well-shaped entities, the
uuid/timestamp supply made explicit. -/
def detectChanges (gen : Nat → Stamp) (current_entities previous_entities : List Entity) :
    List ChangeRecord :=
  stampList gen (changeArgsList current_entities previous_entities)

/-! ## The detector on raw input dicts (`KeyError` made explicit) -/

/-- An arbitrary input dict as seen by the detector: each of the three
keys it indexes may be missing. -/
structure RawEntity where
  entity_type : Option String
  entity_id : Option String
  data : Option Dict
deriving DecidableEq

/-- Python dict indexing `entity[name]`: raises `KeyError` when missing. -/
def getItem {α : Type} (v : Option α) (name : String) : Except String α :=
  match v with
  | some x => Except.ok x
  | none => Except.error ("KeyError: " ++ name)

/-- `_build_entity_map` on raw entities: `entity["entity_type"]` and
`entity["entity_id"]` are plain dict indexing and raise on a missing key. -/
def buildEntityMapE (entities : List RawEntity) :
    Except String (List ((String × String) × RawEntity)) :=
  entities.foldlM (fun m e => do
    let t ← getItem e.entity_type "entity_type"
    let i ← getItem e.entity_id "entity_id"
    pure (dinsert m (t, i) e)) []

/-- `detect_changes` on raw entities, each dict indexing explicit. -/
def detectChangesE (gen : Nat → Stamp) (current_entities previous_entities : List RawEntity) :
    Except String (List ChangeRecord) := do
  let current_map ← buildEntityMapE current_entities
  let previous_map ← buildEntityMapE previous_entities
  let added ← current_map.foldlM (fun acc p =>
    if hasKey previous_map p.1 then pure acc else do
      let t ← getItem p.2.entity_type "entity_type"
      let i ← getItem p.2.entity_id "entity_id"
      let d ← getItem p.2.data "data"
      pure (acc ++ [ChangeArgs.mk t i "added" none (some d) none])) []
  let removed ← previous_map.foldlM (fun acc p =>
    if hasKey current_map p.1 then pure acc else do
      let t ← getItem p.2.entity_type "entity_type"
      let i ← getItem p.2.entity_id "entity_id"
      let d ← getItem p.2.data "data"
      pure (acc ++ [ChangeArgs.mk t i "removed" (some d) none none])) []
  let modified ← current_map.foldlM (fun acc p =>
    match dget? previous_map p.1 with
    | some prev_entity => do
        let pd ← getItem prev_entity.data "data"
        let cd ← getItem p.2.data "data"
        let t ← getItem p.2.entity_type "entity_type"
        let i ← getItem p.2.entity_id "entity_id"
        pure (acc ++ (detectFieldChanges pd cd).map (fun fc =>
          ChangeArgs.mk t i "modified" (some [(fc.1, fc.2.1)]) (some [(fc.1, fc.2.2)]) (some fc.1)))
    | none => pure acc) []
  pure (stampList gen (added ++ removed ++ modified))

/-! ## The alert manager (`AlertManager`) -/

/-- Default `significance_threshold` (`config.py`, `AlertingSettings`). -/
def defaultSignificanceThreshold : Int := 75

/-- Default `dedup_window_hours` (`config.py`, `AlertingSettings`). -/
def defaultDedupWindowHours : Int := 24

/-- One entry of the `alert_history` list of dicts; every field is read
with `.get`, so each may be absent. -/
structure AlertHistoryRecord where
  change_id : Option Nat
  alert_timestamp : Option Int
  entity_type : Option String
  entity_id : Option String
  change_type : Option String
deriving DecidableEq

/-- The `AlertMessage` pydantic model (`models.py`). -/
structure AlertMessage where
  change_id : Nat
  level : String
  score : Int
  summary : String
  rationale : String
  affected_entities : List String
  source_links : List Val
  timestamp : Int
deriving DecidableEq

/-- `AlertManager._is_duplicate`: exact `change_id` match at any age, or
a same-triple alert younger than `now - dedup_window_hours`.  Time is in
seconds, `timedelta(hours=h)` being `h * 3600`. -/
def isDuplicate (dedup_window_hours now : Int) (change : ChangeRecord)
    (alert_history : List AlertHistoryRecord) : Bool :=
  if alert_history.any (fun a => a.change_id = some change.change_id) then true
  else
    let cutoff := now - dedup_window_hours * 3600
    alert_history.any (fun a =>
      match a.alert_timestamp with
      | some t =>
          decide (cutoff < t) &&
            (decide (a.entity_type = some change.entity_type) &&
             decide (a.entity_id = some change.entity_id) &&
             decide (a.change_type = some change.change_type))
      | none => false)

/-- Python `s.replace("_", " ")`: with the one-character pattern of the
only call site this is exactly a character-wise replacement. -/
def replaceUnderscores (s : String) : String :=
  String.mk (s.toList.map (fun c => if c = '_' then ' ' else c))

/-- Python `str.title()`: upper-cases the first letter of every
alphabetic run and lower-cases the rest. -/
def pyTitle (s : String) : String :=
  (s.toList.foldl (fun (acc : String × Bool) c =>
    if c.isAlpha then (acc.1.push (if acc.2 then c.toLower else c.toUpper), true)
    else (acc.1.push c, false)) ("", false)).1

/-- Python `field_changed or "unknown field"` (`None` and `""` falsy). -/
def orStr (a : Option String) (b : String) : String :=
  match a with
  | some s => if s.isEmpty then b else s
  | none => b

/-- Builds the human-readable summary line of an alert. -/
def buildChangeSummary (change : ChangeRecord) : String :=
  let entityTypeTitle := pyTitle (replaceUnderscores change.entity_type)
  if change.change_type = "added" then
    if change.entity_type = "stakeholder" then
      let name := pyStr (dgetD (orD change.new_value []) "name" (vStr "Unknown"))
      let role := pyStr (dgetD (orD change.new_value []) "role" (vStr "Unknown"))
      s!"New {role} added: {name}"
    else if change.entity_type = "external_event" then
      let title := pyStr (dgetD (orD change.new_value []) "title" (vStr "Unknown"))
      s!"External event detected: {title}"
    else s!"New {entityTypeTitle} added"
  else if change.change_type = "removed" then
    if change.entity_type = "stakeholder" then
      let name := pyStr (dgetD (orD change.previous_value []) "name" (vStr "Unknown"))
      let role := pyStr (dgetD (orD change.previous_value []) "role" (vStr "Unknown"))
      s!"{role} removed: {name}"
    else s!"{entityTypeTitle} removed"
  else if change.change_type = "modified" then
    let field := orStr change.field_changed "unknown field"
    let prevVal := pyStr (dgetD (orD change.previous_value []) field (vStr "Unknown"))
    let newVal := pyStr (dgetD (orD change.new_value []) field (vStr "Unknown"))
    s!"{entityTypeTitle} {field} changed from \x27{prevVal}\x27 to \x27{newVal}\x27"
  else
    let ct := change.change_type
    s!"{entityTypeTitle} {ct}"

/-- `AlertManager._build_affected_entities`. -/
def buildAffectedEntities (change : ChangeRecord) : List String :=
  (if change.entity_type = "stakeholder" then
    ["Executive Leadership", "Strategic Decision-Making"] else [])
  ++ (if change.entity_type = "program" then
    let programName := pyStr (dgetD (orD change.new_value (orD change.previous_value []))
      "name" (vStr "Unknown"))
    [s!"Program: {programName}", "Phase 1 Milestones"] else [])
  ++ (if change.entity_type = "risk" then
    ["Program Delivery", "Timeline & Schedule"] else [])
  ++ (if change.entity_type = "external_event" then
    ["Corporate Strategy", "Market Position", "Competitive Dynamics"] else [])
  ++ (if change.entity_type = "timeline" then
    ["Project Schedule", "Milestone Delivery"] else [])

/-- `AlertManager._extract_source_links`. -/
def extractSourceLinks (change : ChangeRecord) : List Val :=
  [change.previous_value, change.new_value].foldl (fun sources vd =>
    match vd with
    | some d =>
        if d.isEmpty then sources
        else
          let src := pyGet d "source"
          let url := pyGet d "url"
          let s1 := if valTruthy src ∧ src ∉ sources then sources ++ [src] else sources
          if valTruthy url ∧ url ∉ s1 then s1 ++ [url] else s1
    | none => sources) []

/-- `AlertManager._format_alert`, the alert timestamp made explicit. -/
def formatAlert (now : Int) (change : ChangeRecord) : AlertMessage :=
  { change_id := change.change_id
    level := change.significance_level
    score := change.significance_score
    summary := buildChangeSummary change
    rationale := change.rationale
    affected_entities := buildAffectedEntities change
    source_links := extractSourceLinks change
    timestamp := now }

/-- `AlertManager.process_changes`: threshold filter, dedup, then
format-and-send.  `sendOk` tells whether `_send_alert` succeeds for a
given change; on failure the alert is logged and not appended. -/
def processChanges (significance_threshold dedup_window_hours now : Int)
    (sendOk : ChangeRecord → Bool) (changes : List ChangeRecord)
    (alert_history : List AlertHistoryRecord) : List AlertMessage :=
  match changes with
  | [] => []
  | change :: rest =>
      if change.significance_score < significance_threshold then
        processChanges significance_threshold dedup_window_hours now sendOk rest alert_history
      else if isDuplicate dedup_window_hours now change alert_history then
        processChanges significance_threshold dedup_window_hours now sendOk rest alert_history
      else if sendOk change then
        formatAlert now change ::
          processChanges significance_threshold dedup_window_hours now sendOk rest alert_history
      else
        processChanges significance_threshold dedup_window_hours now sendOk rest alert_history

/-! ## Projections and concrete inputs used by the theorems below -/

/-- All attributes of a change record except `change_id` and
`change_timestamp`. -/
def changeRecordView (r : ChangeRecord) :
    String × String × String × Option Dict × Option Dict × Option String × Int × String × String :=
  (r.entity_type, r.entity_id, r.change_type, r.previous_value, r.new_value,
   r.field_changed, r.significance_score, r.significance_level, r.rationale)

/-- A concrete uuid/timestamp supply. -/
def g0 : Nat → Stamp := fun i => ⟨i, 0⟩

/-- Whether an `Except` computation raised. -/
def exceptIsError {ε α : Type} : Except ε α → Bool
  | Except.error _ => true
  | Except.ok _ => false

/-- Concrete stakeholder entity: a CEO (scenario of §8 of the spec). -/
def ceoEntity : Entity :=
  ⟨"stakeholder", "ceo@fis.com", [("name", vStr "Jane"), ("role", vStr "CEO")]⟩

/-- Concrete risk entity with Critical severity. -/
def criticalRiskEntity : Entity := ⟨"risk", "r1", [("severity", vStr "Critical")]⟩

/-- Current side of a pair whose only difference is a field present in
the previous snapshot and absent from the current one. -/
def dropFieldCur : Entity := ⟨"stakeholder", "s1", []⟩

/-- Previous side of that pair: carries the non-volatile field
`location` that the current side no longer has. -/
def dropFieldPrev : Entity := ⟨"stakeholder", "s1", [("location", vStr "NY")]⟩

/-- Current side of a one-field modification (role Intern -> CEO). -/
def roleChangeCur : Entity := ⟨"stakeholder", "s1", [("role", vStr "CEO")]⟩

/-- Previous side of that modification. -/
def roleChangePrev : Entity := ⟨"stakeholder", "s1", [("role", vStr "Intern")]⟩

/-- A raw input entity missing the `data` key. -/
def rawMissingData : RawEntity := ⟨some "stakeholder", some "s1", none⟩

/-- A raw input entity missing the `entity_type` key. -/
def rawMissingType : RawEntity := ⟨none, some "s2", some []⟩

/-- A program entity entering the snapshot already Blocked. -/
def blockedProgramEntity : Entity := ⟨"program", "p1", [("status", vStr "Blocked")]⟩

/-- The added-record the detector creates for `ceoEntity` under `g0`. -/
def ceoAddedRecord : ChangeRecord :=
  createChangeRecord ⟨0, 0⟩
    ⟨"stakeholder", "ceo@fis.com", "added", none,
     some [("name", vStr "Jane"), ("role", vStr "CEO")], none⟩

/-- The added-record the detector creates for `blockedProgramEntity`. -/
def blockedProgramRecord : ChangeRecord :=
  createChangeRecord ⟨0, 0⟩
    ⟨"program", "p1", "added", none, some [("status", vStr "Blocked")], none⟩

/-- The removed-record the detector creates for `criticalRiskEntity`. -/
def criticalRiskRemovedRecord : ChangeRecord :=
  createChangeRecord ⟨0, 0⟩
    ⟨"risk", "r1", "removed", some [("severity", vStr "Critical")], none, none⟩

/-- A history entry recording that `ceoAddedRecord`'s change id was
already alerted on. -/
def ceoHistoryEntry : AlertHistoryRecord := ⟨some 0, none, none, none, none⟩

/-! ## Lemmas about the dict operations -/

@[simp] theorem dget?_nil {K V : Type} [DecidableEq K] (k : K) :
    dget? ([] : List (K × V)) k = none := rfl

@[simp] theorem dget?_cons {K V : Type} [DecidableEq K] (k' k : K) (v : V) (rest : List (K × V)) :
    dget? ((k', v) :: rest) k = if k' = k then some v else dget? rest k := rfl

theorem dget?_dinsert {K V : Type} [DecidableEq K] (m : List (K × V)) (k k' : K) (v : V) :
    dget? (dinsert m k v) k' = if k = k' then some v else dget? m k' := by
  induction m with
  | nil => simp [dinsert]
  | cons p rest ih =>
      obtain ⟨pk, pv⟩ := p
      by_cases hpk : pk = k
      · subst hpk
        by_cases h2 : pk = k' <;> simp [dinsert, h2]
      · simp only [dinsert, if_neg hpk]
        by_cases hpk' : pk = k'
        · subst hpk'
          have : ¬ k = pk := fun h => hpk h.symm
          simp [this]
        · simp [hpk', ih]

/-- Inserting a fresh key appends the binding at the end. -/
theorem dinsert_of_not_mem {K V : Type} [DecidableEq K] (m : List (K × V)) (k : K) (v : V)
    (h : dget? m k = none) : dinsert m k v = m ++ [(k, v)] := by
  induction m with
  | nil => rfl
  | cons p rest ih =>
      obtain ⟨pk, pv⟩ := p
      by_cases hpk : pk = k
      · subst hpk; simp at h
      · simp only [dget?_cons, if_neg hpk] at h
        simp [dinsert, hpk, ih h]

theorem dget?_append_of_none {K V : Type} [DecidableEq K] (m1 m2 : List (K × V)) (k : K)
    (h : dget? m1 k = none) : dget? (m1 ++ m2) k = dget? m2 k := by
  induction m1 with
  | nil => rfl
  | cons p rest ih =>
      obtain ⟨pk, pv⟩ := p
      by_cases hpk : pk = k
      · simp [hpk] at h
      · simp only [dget?_cons, if_neg hpk] at h
        simpa [hpk] using ih h

theorem mem_dinsert {K V : Type} [DecidableEq K] (m : List (K × V)) (k : K) (v : V) (x : K × V)
    (h : x ∈ dinsert m k v) : x ∈ m ∨ x = (k, v) := by
  induction m with
  | nil => simpa [dinsert] using h
  | cons p rest ih =>
      obtain ⟨pk, pv⟩ := p
      by_cases hpk : pk = k
      · subst hpk
        simp only [dinsert, if_pos rfl] at h
        rcases List.mem_cons.mp h with h | h
        · exact Or.inr h
        · exact Or.inl (List.mem_cons_of_mem _ h)
      · simp only [dinsert, if_neg hpk] at h
        rcases List.mem_cons.mp h with h | h
        · exact Or.inl (h ▸ List.mem_cons_self _ _)
        · rcases ih h with h | h
          · exact Or.inl (List.mem_cons_of_mem _ h)
          · exact Or.inr h

theorem countP_eq_one_of_nodup_map {α β : Type} [DecidableEq β] (f : α → β) (l : List α)
    (hnd : (l.map f).Nodup) (x : α) (hx : x ∈ l) :
    l.countP (fun y => decide (f y = f x)) = 1 := by
  induction l with
  | nil => simp at hx
  | cons h t ih =>
      rw [List.map_cons, List.nodup_cons] at hnd
      obtain ⟨hhn, hnd'⟩ := hnd
      rcases List.mem_cons.mp hx with hx | hx
      · subst hx
        have ht : t.countP (fun y => decide (f y = f x)) = 0 := by
          rw [List.countP_eq_zero]
          intro y hy hfy
          exact hhn (by simpa using ⟨y, hy, of_decide_eq_true hfy⟩)
        simp [List.countP_cons, ht]
      · have hne : ¬ f h = f x := by
          intro he
          exact hhn (he ▸ (by simpa using ⟨x, hx, rfl⟩))
        simp [List.countP_cons, ih hnd' hx, hne]

theorem sum_map_eq_of_unique {α : Type} [DecidableEq α] (l : List α) (g : α → Nat) (x : α)
    (hx : x ∈ l) (hnd : l.Nodup) (hz : ∀ y ∈ l, y ≠ x → g y = 0) :
    (l.map g).sum = g x := by
  induction l with
  | nil => simp at hx
  | cons h t ih =>
      rw [List.nodup_cons] at hnd
      obtain ⟨hht, hnd'⟩ := hnd
      rcases List.mem_cons.mp hx with hx | hx
      · subst hx
        have hall : ∀ y ∈ t, g y = 0 := fun y hy =>
          hz y (List.mem_cons_of_mem _ hy) (fun he => hht (he ▸ hy))
        have : (List.map g t).sum = 0 := by
          apply List.sum_eq_zero
          intro z hz'
          rcases List.mem_map.mp hz' with ⟨y, hy, hyz⟩
          exact hyz ▸ hall y hy
        simp [this]
      · have hh0 : g h = 0 := hz h (List.mem_cons_self _ _) (fun he => hht (he ▸ hx))
        simp [hh0, ih hx hnd' (fun y hy => hz y (List.mem_cons_of_mem _ hy))]

/-! ## Lemmas about record creation and stamping -/

theorem createChangeRecord_fields (st : Stamp) (a : ChangeArgs) :
    (createChangeRecord st a).entity_type = a.entity_type ∧
    (createChangeRecord st a).entity_id = a.entity_id ∧
    (createChangeRecord st a).change_type = a.change_type ∧
    (createChangeRecord st a).previous_value = a.previous_value ∧
    (createChangeRecord st a).new_value = a.new_value ∧
    (createChangeRecord st a).field_changed = a.field_changed ∧
    (createChangeRecord st a).significance_score =
      (calculateSignificance a.entity_type a.change_type a.previous_value a.new_value
        a.field_changed).1 ∧
    (createChangeRecord st a).significance_level =
      (calculateSignificance a.entity_type a.change_type a.previous_value a.new_value
        a.field_changed).2 :=
  ⟨rfl, rfl, rfl, rfl, rfl, rfl, rfl, rfl⟩

theorem length_stampList (gen : Nat → Stamp) (l : List ChangeArgs) :
    (stampList gen l).length = l.length := by
  induction l generalizing gen with
  | nil => rfl
  | cons a rest ih => simp [stampList, ih]

theorem map_view_stampList (gen : Nat → Stamp) (l : List ChangeArgs) :
    (stampList gen l).map changeRecordView =
      l.map (fun a => changeRecordView (createChangeRecord ⟨0, 0⟩ a)) := by
  induction l generalizing gen with
  | nil => rfl
  | cons a rest ih =>
      simp only [stampList, List.map_cons, ih]
      exact congrArg (· :: _) rfl

theorem mem_stampList {r : ChangeRecord} {gen : Nat → Stamp} {l : List ChangeArgs}
    (h : r ∈ stampList gen l) : ∃ st a, a ∈ l ∧ r = createChangeRecord st a := by
  induction l generalizing gen with
  | nil => simp [stampList] at h
  | cons a rest ih =>
      rcases List.mem_cons.mp h with h | h
      · exact ⟨gen 0, a, List.mem_cons_self _ _, h⟩
      · rcases ih h with ⟨st, a', ha', hr⟩
        exact ⟨st, a', List.mem_cons_of_mem _ ha', hr⟩

theorem countP_stampList (p : ChangeRecord → Bool) (q : ChangeArgs → Bool)
    (hpq : ∀ st a, p (createChangeRecord st a) = q a) (gen : Nat → Stamp)
    (l : List ChangeArgs) : (stampList gen l).countP p = l.countP q := by
  induction l generalizing gen with
  | nil => rfl
  | cons a rest ih => simp [stampList, List.countP_cons, ih, hpq]

/-! ## Lemmas about the entity maps -/

theorem dget?_foldl_dinsert (es : List Entity) (acc : List ((String × String) × Entity))
    (k : String × String) :
    (dget? (es.foldl (fun m e => dinsert m (entityKey e) e) acc) k).isSome =
      ((dget? acc k).isSome || es.any (fun e => decide (entityKey e = k))) := by
  induction es generalizing acc with
  | nil => simp
  | cons e rest ih =>
      rw [List.foldl_cons, ih, List.any_cons]
      by_cases hk : entityKey e = k
      · simp [dget?_dinsert, hk]
      · simp [dget?_dinsert, hk]

theorem hasKey_buildEntityMap (es : List Entity) (k : String × String) :
    hasKey (buildEntityMap es) k = es.any (fun e => decide (entityKey e = k)) := by
  rw [hasKey, buildEntityMap, dget?_foldl_dinsert]
  simp

theorem buildEntityMap_eq_of_nodup (es : List Entity) (h : (es.map entityKey).Nodup) :
    buildEntityMap es = es.map (fun e => (entityKey e, e)) := by
  suffices haux : ∀ (l : List Entity) (acc : List ((String × String) × Entity)),
      (l.map entityKey).Nodup → (∀ e ∈ l, dget? acc (entityKey e) = none) →
      l.foldl (fun m e => dinsert m (entityKey e) e) acc =
        acc ++ l.map (fun e => (entityKey e, e)) by
    simpa using haux es [] h (fun e _ => rfl)
  intro l
  induction l with
  | nil => intro acc _ _; simp
  | cons e rest ih =>
      intro acc hnd hfresh
      rw [List.map_cons, List.nodup_cons] at hnd
      obtain ⟨hhn, hnd'⟩ := hnd
      have hfresh' : ∀ e' ∈ rest, dget? (acc ++ [(entityKey e, e)]) (entityKey e') = none := by
        intro e' he'
        have h1 : dget? acc (entityKey e') = none := hfresh e' (List.mem_cons_of_mem _ he')
        have h2 : ¬ entityKey e = entityKey e' := by
          intro he
          exact hhn (he ▸ (by simpa using ⟨e', he', rfl⟩))
        rw [dget?_append_of_none _ _ _ h1]
        simp [h2]
      rw [List.foldl_cons,
        dinsert_of_not_mem acc (entityKey e) e (hfresh e (List.mem_cons_self _ _)),
        ih (acc ++ [(entityKey e, e)]) hnd' hfresh']
      simp

theorem dget?_map_pair (l : List Entity) (k : String × String) :
    dget? (l.map (fun e => (entityKey e, e))) k =
      l.find? (fun e => decide (entityKey e = k)) := by
  induction l with
  | nil => rfl
  | cons e rest ih =>
      by_cases hk : entityKey e = k <;> simp [List.find?_cons, hk, ih]

theorem find?_key_of_nodup (l : List Entity) (hnd : (l.map entityKey).Nodup) (e : Entity)
    (he : e ∈ l) : l.find? (fun x => decide (entityKey x = entityKey e)) = some e := by
  induction l with
  | nil => simp at he
  | cons h t ih =>
      rw [List.map_cons, List.nodup_cons] at hnd
      obtain ⟨hhn, hnd'⟩ := hnd
      by_cases hk : entityKey h = entityKey e
      · have : h = e := by
          rcases List.mem_cons.mp he with he' | he'
          · exact he'.symm
          · exact absurd (hk ▸ (by simpa using ⟨e, he', rfl⟩)) hhn
        simp [List.find?_cons, hk, this]
      · have het : e ∈ t := by
          rcases List.mem_cons.mp he with he' | he'
          · exact absurd (he' ▸ rfl) hk
          · exact he'
        simp [List.find?_cons, hk, ih hnd' het]

/-! ## Lemmas about field-level diffing -/

theorem detectFieldChanges_eq_of_nodup (previous current : Dict)
    (h : (current.map Prod.fst).Nodup) :
    detectFieldChanges previous current =
      (current.filter (fun fv =>
        decide (pyGet previous fv.1 ≠ fv.2 ∧ fv.1 ∉ volatileFields))).map
        (fun fv => (fv.1, (pyGet previous fv.1, fv.2))) := by
  suffices haux : ∀ (l : Dict) (acc : List (String × (Val × Val))),
      (l.map Prod.fst).Nodup → (∀ fv ∈ l, dget? acc fv.1 = none) →
      l.foldl (fun changes fv =>
        let prev_value := pyGet previous fv.1
        if prev_value ≠ fv.2 ∧ fv.1 ∉ volatileFields then
          dinsert changes fv.1 (prev_value, fv.2)
        else changes) acc =
      acc ++ (l.filter (fun fv =>
        decide (pyGet previous fv.1 ≠ fv.2 ∧ fv.1 ∉ volatileFields))).map
        (fun fv => (fv.1, (pyGet previous fv.1, fv.2))) by
    simpa [detectFieldChanges] using haux current [] h (fun fv _ => rfl)
  intro l
  induction l with
  | nil => intro acc _ _; simp
  | cons fv rest ih =>
      intro acc hnd hfresh
      rw [List.map_cons, List.nodup_cons] at hnd
      obtain ⟨hhn, hnd'⟩ := hnd
      rw [List.foldl_cons]
      show List.foldl _ (if pyGet previous fv.1 ≠ fv.2 ∧ fv.1 ∉ volatileFields then
          dinsert acc fv.1 (pyGet previous fv.1, fv.2) else acc) rest = _
      by_cases hc : pyGet previous fv.1 ≠ fv.2 ∧ fv.1 ∉ volatileFields
      · rw [if_pos hc,
          dinsert_of_not_mem acc fv.1 (pyGet previous fv.1, fv.2)
            (hfresh fv (List.mem_cons_self _ _))]
        have hfresh' : ∀ fv' ∈ rest,
            dget? (acc ++ [(fv.1, (pyGet previous fv.1, fv.2))]) fv'.1 = none := by
          intro fv' hfv'
          have h1 : dget? acc fv'.1 = none := hfresh fv' (List.mem_cons_of_mem _ hfv')
          have h2 : ¬ fv.1 = fv'.1 := by
            intro he
            exact hhn (he ▸ List.mem_map_of_mem Prod.fst hfv')
          rw [dget?_append_of_none _ _ _ h1]
          simp [h2]
        rw [ih (acc ++ [(fv.1, (pyGet previous fv.1, fv.2))]) hnd' hfresh']
        simp [List.filter_cons, hc]
      · rw [if_neg hc,
          ih acc hnd' (fun fv' hfv' => hfresh fv' (List.mem_cons_of_mem _ hfv'))]
        simp [List.filter_cons, hc]

theorem fst_mem_of_mem_detectFieldChanges (previous current : Dict) (x : String × (Val × Val))
    (h : x ∈ detectFieldChanges previous current) : x.1 ∈ current.map Prod.fst := by
  suffices haux : ∀ (l : Dict) (acc : List (String × (Val × Val))),
      x ∈ l.foldl (fun changes fv =>
        let prev_value := pyGet previous fv.1
        if prev_value ≠ fv.2 ∧ fv.1 ∉ volatileFields then
          dinsert changes fv.1 (prev_value, fv.2)
        else changes) acc → x ∈ acc ∨ x.1 ∈ l.map Prod.fst by
    rcases haux current [] h with hx | hx
    · simp at hx
    · exact hx
  intro l
  induction l with
  | nil => intro acc hx; exact Or.inl hx
  | cons fv rest ih =>
      intro acc hx
      rw [List.foldl_cons] at hx
      rcases ih _ hx with hx' | hx'
      · by_cases hc : pyGet previous fv.1 ≠ fv.2 ∧ fv.1 ∉ volatileFields
        · rw [if_pos hc] at hx'
          rcases mem_dinsert _ _ _ _ hx' with hm | hm
          · exact Or.inl hm
          · exact Or.inr (by simp [hm])
        · rw [if_neg hc] at hx'
          exact Or.inl hx'
      · exact Or.inr (by simp; right; simpa using hx')

/-! ## Shape of the produced change arguments -/

theorem modifiedArgs_nil_prev (cm : List ((String × String) × Entity)) :
    modifiedArgs cm [] = [] := by
  unfold modifiedArgs
  induction cm with
  | nil => rfl
  | cons p r ih => simp [ih]

theorem shape_of_mem_changeArgsList (cur prev : List Entity) (a : ChangeArgs)
    (h : a ∈ changeArgsList cur prev) :
    (a.change_type = "added" ∧ a.previous_value = none ∧ a.field_changed = none) ∨
    (a.change_type = "removed" ∧ a.new_value = none ∧ a.field_changed = none) ∨
    (a.change_type = "modified" ∧ ∃ f pv nv, a.field_changed = some f ∧
      a.previous_value = some [(f, pv)] ∧ a.new_value = some [(f, nv)]) := by
  rw [changeArgsList, List.append_assoc] at h
  rcases List.mem_append.mp h with h | h
  · rcases List.mem_map.mp h with ⟨p, _, rfl⟩
    exact Or.inl ⟨rfl, rfl, rfl⟩
  · rcases List.mem_append.mp h with h | h
    · rcases List.mem_map.mp h with ⟨p, _, rfl⟩
      exact Or.inr (Or.inl ⟨rfl, rfl, rfl⟩)
    · rcases List.mem_flatMap.mp h with ⟨p, _, hmem⟩
      rcases hm : dget? (buildEntityMap prev) p.1 with _ | prev_entity
      · rw [hm] at hmem
        simp at hmem
      · rw [hm] at hmem
        rcases List.mem_map.mp hmem with ⟨fc, _, rfl⟩
        exact Or.inr (Or.inr ⟨rfl, fc.1, fc.2.1, fc.2.2, rfl, rfl, rfl⟩)

/-! ## Lemmas about the significance calculation -/

theorem entityBaseScore_nonneg (et : String) : 0 ≤ entityBaseScore et := by
  unfold entityBaseScore; split_ifs <;> norm_num

theorem changeTypeModifier_nonneg (ct : String) : 0 ≤ changeTypeModifier ct := by
  unfold changeTypeModifier; split_ifs <;> norm_num

theorem stakeholderRoleBonus_nonneg (pv nv : Option Dict) : 0 ≤ stakeholderRoleBonus pv nv := by
  simp only [stakeholderRoleBonus]; split_ifs <;> norm_num

theorem programStatusBonus_nonneg (nv : Option Dict) (fc : Option String) :
    0 ≤ programStatusBonus nv fc := by
  simp only [programStatusBonus]; split_ifs <;> norm_num

theorem riskSeverityBonus_nonneg (nv : Option Dict) : 0 ≤ riskSeverityBonus nv := by
  simp only [riskSeverityBonus]; split_ifs <;> norm_num

theorem externalEventBonus_nonneg (nv : Option Dict) : 0 ≤ externalEventBonus nv := by
  simp only [externalEventBonus]; split_ifs <;> norm_num

theorem calculateSignificance_spec (et ct : String) (pv nv : Option Dict)
    (fc : Option String) :
    0 ≤ (calculateSignificance et ct pv nv fc).1 ∧
    (calculateSignificance et ct pv nv fc).1 ≤ 100 ∧
    (calculateSignificance et ct pv nv fc).2 =
      bucketLevel (calculateSignificance et ct pv nv fc).1 := by
  have h2 : 0 ≤ (if et = "stakeholder" then stakeholderRoleBonus pv nv else 0) := by
    split_ifs
    · exact stakeholderRoleBonus_nonneg pv nv
    · exact le_refl 0
  have h3 : 0 ≤ (if et = "program" then programStatusBonus nv fc else 0) := by
    split_ifs
    · exact programStatusBonus_nonneg nv fc
    · exact le_refl 0
  have h4 : 0 ≤ (if et = "risk" then riskSeverityBonus nv else 0) := by
    split_ifs
    · exact riskSeverityBonus_nonneg nv
    · exact le_refl 0
  have h5 : 0 ≤ (if et = "external_event" then externalEventBonus nv else 0) := by
    split_ifs
    · exact externalEventBonus_nonneg nv
    · exact le_refl 0
  refine ⟨?_, min_le_right _ _, rfl⟩
  refine le_min ?_ (by norm_num)
  exact add_nonneg (add_nonneg (add_nonneg
    (add_nonneg (entityBaseScore_nonneg et) (changeTypeModifier_nonneg ct)) h2) h3) h4
    |>.trans (le_add_of_nonneg_right h5)

theorem calculateSignificance_risk (ct : String) (pv nv : Option Dict) (fc : Option String) :
    calculateSignificance "risk" ct pv nv fc =
      (min (35 + changeTypeModifier ct + riskSeverityBonus nv) 100,
       bucketLevel (min (35 + changeTypeModifier ct + riskSeverityBonus nv) 100)) := by
  simp [calculateSignificance, entityBaseScore]

theorem calculateSignificance_program (ct : String) (pv nv : Option Dict)
    (fc : Option String) :
    calculateSignificance "program" ct pv nv fc =
      (min (25 + changeTypeModifier ct + programStatusBonus nv fc) 100,
       bucketLevel (min (25 + changeTypeModifier ct + programStatusBonus nv fc) 100)) := by
  simp [calculateSignificance, entityBaseScore]

/-! ## Claim C9: determinism up to identifiers and timestamps -/

/-- C9: `detect_changes` is deterministic up to freshly generated
identifiers and timestamps: two runs on the same pair of input
collections yield record sequences of equal length agreeing
position-by-position on every attribute except `change_id` and
`change_timestamp`. -/
theorem detect_changes_deterministic (g1 g2 : Nat → Stamp)
    (cur prev : List Entity) :
    (detectChanges g1 cur prev).length = (detectChanges g2 cur prev).length ∧
    (detectChanges g1 cur prev).map changeRecordView =
      (detectChanges g2 cur prev).map changeRecordView := by
  constructor
  · rw [detectChanges, detectChanges, length_stampList, length_stampList]
  · rw [detectChanges, detectChanges, map_view_stampList, map_view_stampList]

/-! ## Claim C4: score bounds and level bucketing -/

/-- C4: every record the detector produces has a significance score in
the interval 0 to 100 and a significance level that is the exact
bucketing of that score; the bucket boundaries are the ones of the spec
(75 CRITICAL, 74 and 60 HIGH, 59 and 40 MEDIUM, 39 LOW; in general at
least 75 CRITICAL, at least 60 HIGH, at least 40 MEDIUM, else LOW). -/
theorem detector_score_bounds_and_bucketing (gen : Nat → Stamp)
    (cur prev : List Entity) (r : ChangeRecord)
    (h : r ∈ detectChanges gen cur prev) :
    (0 ≤ r.significance_score ∧ r.significance_score ≤ 100 ∧
     r.significance_level = bucketLevel r.significance_score) ∧
    (bucketLevel 75 = "CRITICAL" ∧ bucketLevel 74 = "HIGH" ∧
     bucketLevel 60 = "HIGH" ∧ bucketLevel 59 = "MEDIUM" ∧
     bucketLevel 40 = "MEDIUM" ∧ bucketLevel 39 = "LOW") ∧
    (∀ s : Int, (75 ≤ s → bucketLevel s = "CRITICAL") ∧
      (60 ≤ s → s < 75 → bucketLevel s = "HIGH") ∧
      (40 ≤ s → s < 60 → bucketLevel s = "MEDIUM") ∧
      (s < 40 → bucketLevel s = "LOW")) := by
  refine ⟨?_, by constructor <;> decide, ?_⟩
  · rcases mem_stampList h with ⟨st, a, _, rfl⟩
    exact calculateSignificance_spec a.entity_type a.change_type
      a.previous_value a.new_value a.field_changed
  · intro s
    refine ⟨fun h75 => ?_, fun h60 h75 => ?_, fun h40 h60 => ?_, fun h40 => ?_⟩ <;>
      · unfold bucketLevel
        split_ifs <;> first | rfl | omega

/-- Witness for C4 at a concrete run: the CEO-added record. -/
theorem detector_score_bounds_and_bucketing_witness :
    0 ≤ ceoAddedRecord.significance_score ∧
    ceoAddedRecord.significance_score ≤ 100 ∧
    ceoAddedRecord.significance_level = bucketLevel ceoAddedRecord.significance_score :=
  (detector_score_bounds_and_bucketing g0 [ceoEntity] [] ceoAddedRecord (by decide)).1

/-! ## Claim C3: the risk severity modifier -/

/-- C3 counterexample: removing a risk whose severity is Critical yields
one removed record scoring 35 + 20 = 55; the severity bonus claimed for
every change type (which would give 95) is not applied. -/
theorem risk_severity_modifier_counterexample :
    (detectChanges g0 [] [criticalRiskEntity]).map
      (fun r => (r.change_type, r.significance_score)) = [("removed", 55)] := by decide

/-- C3 amended: for every risk record the severity modifier is read from
`new_value` alone (+40 when it carries severity Critical, +25 for High),
so it reaches added records and those modified records whose changed
field is the severity; a removed risk record has `new_value` null and
scores exactly 35 + 20 = 55, whatever severity the entity had. -/
theorem risk_severity_modifier (gen : Nat → Stamp) (cur prev : List Entity)
    (r : ChangeRecord) (h : r ∈ detectChanges gen cur prev)
    (hrisk : r.entity_type = "risk") :
    r.significance_score =
      min (35 + changeTypeModifier r.change_type + riskSeverityBonus r.new_value) 100 ∧
    (r.change_type = "removed" → r.new_value = none ∧ r.significance_score = 55) := by
  rcases mem_stampList h with ⟨st, a, ha, rfl⟩
  have hrisk' : a.entity_type = "risk" := hrisk
  constructor
  · show (calculateSignificance a.entity_type a.change_type a.previous_value a.new_value
      a.field_changed).1 = min (35 + changeTypeModifier a.change_type +
        riskSeverityBonus a.new_value) 100
    rw [hrisk', calculateSignificance_risk]
  · intro hrem
    have hrem' : a.change_type = "removed" := hrem
    rcases shape_of_mem_changeArgsList cur prev a ha with ⟨hct, _, _⟩ | ⟨hct, hnv, _⟩ | ⟨hct, _⟩
    · rw [hct] at hrem'; exact absurd hrem' (by decide)
    · refine ⟨hnv, ?_⟩
      show (calculateSignificance a.entity_type a.change_type a.previous_value a.new_value
        a.field_changed).1 = 55
      rw [hrisk', calculateSignificance_risk, hrem', hnv]
      decide
    · rw [hct] at hrem'; exact absurd hrem' (by decide)

/-- Witness for C3 amended at a concrete run: the removed Critical risk. -/
theorem risk_severity_modifier_witness :
    criticalRiskRemovedRecord.significance_score =
      min (35 + changeTypeModifier criticalRiskRemovedRecord.change_type +
        riskSeverityBonus criticalRiskRemovedRecord.new_value) 100 :=
  (risk_severity_modifier g0 [] [criticalRiskEntity] criticalRiskRemovedRecord
    (by decide) (by decide)).1

/-! ## Claim C10: status degradation modifier needs a modified status field -/

/-- C10: the +30 status-degradation modifier requires
`field_changed = "status"`; an added program record has no
`field_changed`, so even entering as Blocked or At Risk it scores
25 + 15 = 40 (level MEDIUM) and, under the default significance
threshold 75, never yields an alert. -/
theorem program_added_blocked_scores_medium (gen : Nat → Stamp) (cur prev : List Entity)
    (r : ChangeRecord) (h : r ∈ detectChanges gen cur prev)
    (hprog : r.entity_type = "program") (hadd : r.change_type = "added")
    (hstatus : pyGet (orD r.new_value []) "status" ∈ [vStr "Blocked", vStr "At Risk"])
    (w now : Int) (ok : ChangeRecord → Bool) (hist : List AlertHistoryRecord) :
    r.field_changed = none ∧ r.significance_score = 40 ∧
    r.significance_level = "MEDIUM" ∧
    processChanges defaultSignificanceThreshold w now ok [r] hist = [] := by
  rcases mem_stampList h with ⟨st, a, ha, rfl⟩
  have hprog' : a.entity_type = "program" := hprog
  have hadd' : a.change_type = "added" := hadd
  have hfc : a.field_changed = none := by
    rcases shape_of_mem_changeArgsList cur prev a ha with ⟨_, _, hf⟩ | ⟨hct, _, _⟩ | ⟨hct, _⟩
    · exact hf
    · rw [hct] at hadd'; exact absurd hadd' (by decide)
    · rw [hct] at hadd'; exact absurd hadd' (by decide)
  have hscore : (createChangeRecord st a).significance_score = 40 := by
    show (calculateSignificance a.entity_type a.change_type a.previous_value a.new_value
      a.field_changed).1 = 40
    rw [hprog', calculateSignificance_program, hadd', hfc]
    simp [changeTypeModifier, programStatusBonus]
  refine ⟨hfc, hscore, ?_, ?_⟩
  · show (calculateSignificance a.entity_type a.change_type a.previous_value a.new_value
      a.field_changed).2 = "MEDIUM"
    rw [hprog', calculateSignificance_program, hadd', hfc]
    simp [changeTypeModifier, programStatusBonus]
    decide
  · simp [processChanges, defaultSignificanceThreshold, hscore]

/-- Witness for C10 at a concrete run: the Blocked program added. -/
theorem program_added_blocked_scores_medium_witness :
    blockedProgramRecord.field_changed = none ∧
    blockedProgramRecord.significance_score = 40 ∧
    blockedProgramRecord.significance_level = "MEDIUM" ∧
    processChanges defaultSignificanceThreshold 24 0 (fun _ => true)
      [blockedProgramRecord] [] = [] :=
  program_added_blocked_scores_medium g0 [blockedProgramEntity] [] blockedProgramRecord
    (by decide) (by decide) (by decide) (by decide) 24 0 (fun _ => true) []

/-! ## Claim C5: the CEO-added scenario through detector and alert manager -/

/-- C5: a stakeholder added with role CEO scores 30 + 15 + 40 = 85 with
level CRITICAL; the alert manager includes the record at the default
significance threshold 75 and excludes it at threshold 90. -/
theorem ceo_added_scenario :
    (detectChanges g0 [ceoEntity] []).map
      (fun r => (r.significance_score, r.significance_level)) = [(85, "CRITICAL")] ∧
    (processChanges defaultSignificanceThreshold defaultDedupWindowHours 0 (fun _ => true)
      (detectChanges g0 [ceoEntity] []) []).map (fun a => (a.change_id, a.score)) = [(0, 85)] ∧
    processChanges 90 defaultDedupWindowHours 0 (fun _ => true)
      (detectChanges g0 [ceoEntity] []) [] = [] := by decide

/-! ## Membership in the three argument lists -/

theorem mem_addedArgs {cm pm : List ((String × String) × Entity)} {a : ChangeArgs}
    (h : a ∈ addedArgs cm pm) :
    ∃ p ∈ cm, hasKey pm p.1 = false ∧
      a = ⟨p.2.entity_type, p.2.entity_id, "added", none, some p.2.data, none⟩ := by
  rcases List.mem_map.mp h with ⟨p, hp, rfl⟩
  rcases List.mem_filter.mp hp with ⟨hpc, hpf⟩
  exact ⟨p, hpc, by simpa using hpf, rfl⟩

theorem mem_removedArgs {cm pm : List ((String × String) × Entity)} {a : ChangeArgs}
    (h : a ∈ removedArgs cm pm) :
    ∃ p ∈ pm, hasKey cm p.1 = false ∧
      a = ⟨p.2.entity_type, p.2.entity_id, "removed", some p.2.data, none, none⟩ := by
  rcases List.mem_map.mp h with ⟨p, hp, rfl⟩
  rcases List.mem_filter.mp hp with ⟨hpc, hpf⟩
  exact ⟨p, hpc, by simpa using hpf, rfl⟩

theorem mem_modifiedArgs {cm pm : List ((String × String) × Entity)} {a : ChangeArgs}
    (h : a ∈ modifiedArgs cm pm) :
    ∃ p ∈ cm, ∃ pe, dget? pm p.1 = some pe ∧
      ∃ fc ∈ detectFieldChanges pe.data p.2.data,
        a = ⟨p.2.entity_type, p.2.entity_id, "modified", some [(fc.1, fc.2.1)],
             some [(fc.1, fc.2.2)], some fc.1⟩ := by
  rcases List.mem_flatMap.mp h with ⟨p, hp, hmem⟩
  rcases hm : dget? pm p.1 with _ | pe
  · rw [hm] at hmem; simp at hmem
  · rw [hm] at hmem
    rcases List.mem_map.mp hmem with ⟨fc, hfc, rfl⟩
    exact ⟨p, hp, pe, hm, fc, hfc, rfl⟩

/-! ## Claim C6: added records -/

/-- C6: every key present in current and absent from previous yields
exactly one added record, carrying the entity's full data as `new_value`
and a null `previous_value`; with an empty previous snapshot the result
is exactly one added record per entity and nothing else. -/
theorem detector_added_records (gen : Nat → Stamp) (cur prev : List Entity)
    (hcn : (cur.map entityKey).Nodup) :
    (∀ e ∈ cur, entityKey e ∉ prev.map entityKey →
      ((detectChanges gen cur prev).countP (fun r =>
         decide (r.entity_type = e.entity_type) && decide (r.entity_id = e.entity_id) &&
         decide (r.change_type = "added")) = 1 ∧
       ∀ r ∈ detectChanges gen cur prev,
         r.entity_type = e.entity_type → r.entity_id = e.entity_id →
         r.change_type = "added" →
         r.previous_value = none ∧ r.new_value = some e.data)) ∧
    (prev = [] →
      (detectChanges gen cur prev).countP
        (fun r => decide (r.change_type = "added")) = cur.length ∧
      (detectChanges gen cur prev).countP
        (fun r => decide (r.change_type = "removed")) = 0 ∧
      (detectChanges gen cur prev).countP
        (fun r => decide (r.change_type = "modified")) = 0) := by
  have hcm : buildEntityMap cur = cur.map (fun e => (entityKey e, e)) :=
    buildEntityMap_eq_of_nodup cur hcn
  constructor
  · intro e he hkey
    have hkeyabs : hasKey (buildEntityMap prev) (entityKey e) = false := by
      rw [hasKey_buildEntityMap]
      rw [List.any_eq_false]
      intro e' he'
      simp only [decide_eq_true_eq]
      intro hk
      exact hkey (hk ▸ List.mem_map_of_mem entityKey he')
    constructor
    · rw [detectChanges,
        countP_stampList _ (fun a =>
          decide (a.entity_type = e.entity_type) && decide (a.entity_id = e.entity_id) &&
          decide (a.change_type = "added")) (fun st a => rfl),
        changeArgsList, List.countP_append, List.countP_append]
      have hadd : (addedArgs (buildEntityMap cur) (buildEntityMap prev)).countP
          (fun a => decide (a.entity_type = e.entity_type) &&
            decide (a.entity_id = e.entity_id) && decide (a.change_type = "added")) = 1 := by
        rw [addedArgs, List.countP_map, List.countP_filter, hcm, List.countP_map]
        rw [List.countP_congr (q := fun x => decide (entityKey x = entityKey e))]
        · exact countP_eq_one_of_nodup_map entityKey cur hcn e he
        · intro x hx
          simp only [Function.comp, decide_eq_true_eq, Bool.and_eq_true, decide_eq_true_eq,
            Bool.not_eq_true']
          constructor
          · rintro ⟨⟨⟨h1, h2⟩, _⟩, _⟩
            show (x.entity_type, x.entity_id) = (e.entity_type, e.entity_id)
            rw [h1, h2]
          · intro hk
            have hx' : x = e := List.inj_on_of_nodup_map hcn hx he hk
            subst hx'
            exact ⟨⟨⟨rfl, rfl⟩, trivial⟩, hkeyabs⟩
      have hrem : (removedArgs (buildEntityMap cur) (buildEntityMap prev)).countP
          (fun a => decide (a.entity_type = e.entity_type) &&
            decide (a.entity_id = e.entity_id) && decide (a.change_type = "added")) = 0 := by
        rw [List.countP_eq_zero]
        intro a ha
        rcases mem_removedArgs ha with ⟨p, _, _, rfl⟩
        simp
      have hmod : (modifiedArgs (buildEntityMap cur) (buildEntityMap prev)).countP
          (fun a => decide (a.entity_type = e.entity_type) &&
            decide (a.entity_id = e.entity_id) && decide (a.change_type = "added")) = 0 := by
        rw [List.countP_eq_zero]
        intro a ha
        rcases mem_modifiedArgs ha with ⟨p, _, pe, _, fc, _, rfl⟩
        simp
      rw [hadd, hrem, hmod]
    · intro r hr htype hid hct
      rcases mem_stampList hr with ⟨st, a, ha, rfl⟩
      have htype' : a.entity_type = e.entity_type := htype
      have hid' : a.entity_id = e.entity_id := hid
      have hct' : a.change_type = "added" := hct
      rw [changeArgsList, List.append_assoc] at ha
      rcases List.mem_append.mp ha with ha | ha
      · rcases mem_addedArgs ha with ⟨p, hp, _, rfl⟩
        rw [hcm] at hp
        rcases List.mem_map.mp hp with ⟨e', he', rfl⟩
        have h1 : e'.entity_type = e.entity_type := htype'
        have h2 : e'.entity_id = e.entity_id := hid'
        have hee : e' = e := by
          apply List.inj_on_of_nodup_map hcn he' he
          show (e'.entity_type, e'.entity_id) = (e.entity_type, e.entity_id)
          rw [h1, h2]
        subst hee
        exact ⟨rfl, rfl⟩
      · rcases List.mem_append.mp ha with ha | ha
        · rcases mem_removedArgs ha with ⟨p, _, _, rfl⟩
          exact absurd (show ("removed" : String) = "added" from hct') (by decide)
        · rcases mem_modifiedArgs ha with ⟨p, _, pe, _, fc, _, rfl⟩
          exact absurd (show ("modified" : String) = "added" from hct') (by decide)
  · rintro rfl
    have hpm : buildEntityMap ([] : List Entity) = [] := rfl
    have haddall : addedArgs (buildEntityMap cur) [] =
        (cur.map (fun e => (entityKey e, e))).map (fun p =>
          ({ entity_type := p.2.entity_type, entity_id := p.2.entity_id,
             change_type := "added", previous_value := none,
             new_value := some p.2.data, field_changed := none } : ChangeArgs)) := by
      rw [addedArgs, hcm]
      congr 1
      apply List.filter_eq_self.mpr
      intro p _
      rfl
    have hremnil : removedArgs (buildEntityMap cur) [] = [] := rfl
    have hmodnil : modifiedArgs (buildEntityMap cur) [] = [] :=
      modifiedArgs_nil_prev _
    refine ⟨?_, ?_, ?_⟩
    · rw [detectChanges, countP_stampList _ (fun a => decide (a.change_type = "added"))
        (fun st a => rfl), changeArgsList, hpm, List.countP_append, List.countP_append,
        hremnil, hmodnil, haddall, List.countP_map, List.countP_map]
      simp [List.countP_eq_length]
    · rw [detectChanges, countP_stampList _ (fun a => decide (a.change_type = "removed"))
        (fun st a => rfl), changeArgsList, hpm, List.countP_append, List.countP_append,
        hremnil, hmodnil, haddall, List.countP_map, List.countP_map]
      simp
    · rw [detectChanges, countP_stampList _ (fun a => decide (a.change_type = "modified"))
        (fun st a => rfl), changeArgsList, hpm, List.countP_append, List.countP_append,
        hremnil, hmodnil, haddall, List.countP_map, List.countP_map]
      simp

/-- Witness for C6 at a concrete run: one CEO entity, empty previous. -/
theorem detector_added_records_witness :
    (detectChanges g0 [ceoEntity] []).countP (fun r =>
      decide (r.entity_type = ceoEntity.entity_type) &&
      decide (r.entity_id = ceoEntity.entity_id) &&
      decide (r.change_type = "added")) = 1 :=
  ((detector_added_records g0 [ceoEntity] [] (by decide)).1 ceoEntity
    (by decide) (by decide)).1

/-! ## Claim C7: removed records -/

/-- C7: every key present in previous and absent from current yields
exactly one removed record, carrying the prior data as `previous_value`
and a null `new_value`. -/
theorem detector_removed_records (gen : Nat → Stamp) (cur prev : List Entity)
    (hpn : (prev.map entityKey).Nodup) :
    ∀ e ∈ prev, entityKey e ∉ cur.map entityKey →
      ((detectChanges gen cur prev).countP (fun r =>
         decide (r.entity_type = e.entity_type) && decide (r.entity_id = e.entity_id) &&
         decide (r.change_type = "removed")) = 1 ∧
       ∀ r ∈ detectChanges gen cur prev,
         r.entity_type = e.entity_type → r.entity_id = e.entity_id →
         r.change_type = "removed" →
         r.new_value = none ∧ r.previous_value = some e.data) := by
  have hpm : buildEntityMap prev = prev.map (fun e => (entityKey e, e)) :=
    buildEntityMap_eq_of_nodup prev hpn
  intro e he hkey
  have hkeyabs : hasKey (buildEntityMap cur) (entityKey e) = false := by
    rw [hasKey_buildEntityMap]
    rw [List.any_eq_false]
    intro e' he'
    simp only [decide_eq_true_eq]
    intro hk
    exact hkey (hk ▸ List.mem_map_of_mem entityKey he')
  constructor
  · rw [detectChanges,
      countP_stampList _ (fun a =>
        decide (a.entity_type = e.entity_type) && decide (a.entity_id = e.entity_id) &&
        decide (a.change_type = "removed")) (fun st a => rfl),
      changeArgsList, List.countP_append, List.countP_append]
    have hadd : (addedArgs (buildEntityMap cur) (buildEntityMap prev)).countP
        (fun a => decide (a.entity_type = e.entity_type) &&
          decide (a.entity_id = e.entity_id) && decide (a.change_type = "removed")) = 0 := by
      rw [List.countP_eq_zero]
      intro a ha
      rcases mem_addedArgs ha with ⟨p, _, _, rfl⟩
      simp
    have hrem : (removedArgs (buildEntityMap cur) (buildEntityMap prev)).countP
        (fun a => decide (a.entity_type = e.entity_type) &&
          decide (a.entity_id = e.entity_id) && decide (a.change_type = "removed")) = 1 := by
      rw [removedArgs, List.countP_map, List.countP_filter, hpm, List.countP_map]
      rw [List.countP_congr (q := fun x => decide (entityKey x = entityKey e))]
      · exact countP_eq_one_of_nodup_map entityKey prev hpn e he
      · intro x hx
        simp only [Function.comp, decide_eq_true_eq, Bool.and_eq_true, decide_eq_true_eq,
          Bool.not_eq_true']
        constructor
        · rintro ⟨⟨⟨h1, h2⟩, _⟩, _⟩
          show (x.entity_type, x.entity_id) = (e.entity_type, e.entity_id)
          rw [h1, h2]
        · intro hk
          have hx' : x = e := List.inj_on_of_nodup_map hpn hx he hk
          subst hx'
          exact ⟨⟨⟨rfl, rfl⟩, trivial⟩, hkeyabs⟩
    have hmod : (modifiedArgs (buildEntityMap cur) (buildEntityMap prev)).countP
        (fun a => decide (a.entity_type = e.entity_type) &&
          decide (a.entity_id = e.entity_id) && decide (a.change_type = "removed")) = 0 := by
      rw [List.countP_eq_zero]
      intro a ha
      rcases mem_modifiedArgs ha with ⟨p, _, pe, _, fc, _, rfl⟩
      simp
    rw [hadd, hrem, hmod]
  · intro r hr htype hid hct
    rcases mem_stampList hr with ⟨st, a, ha, rfl⟩
    have htype' : a.entity_type = e.entity_type := htype
    have hid' : a.entity_id = e.entity_id := hid
    have hct' : a.change_type = "removed" := hct
    rw [changeArgsList, List.append_assoc] at ha
    rcases List.mem_append.mp ha with ha | ha
    · rcases mem_addedArgs ha with ⟨p, _, _, rfl⟩
      exact absurd (show ("added" : String) = "removed" from hct') (by decide)
    · rcases List.mem_append.mp ha with ha | ha
      · rcases mem_removedArgs ha with ⟨p, hp, _, rfl⟩
        rw [hpm] at hp
        rcases List.mem_map.mp hp with ⟨e', he', rfl⟩
        have h1 : e'.entity_type = e.entity_type := htype'
        have h2 : e'.entity_id = e.entity_id := hid'
        have hee : e' = e := by
          apply List.inj_on_of_nodup_map hpn he' he
          show (e'.entity_type, e'.entity_id) = (e.entity_type, e.entity_id)
          rw [h1, h2]
        subst hee
        exact ⟨rfl, rfl⟩
      · rcases mem_modifiedArgs ha with ⟨p, _, pe, _, fc, _, rfl⟩
        exact absurd (show ("modified" : String) = "removed" from hct') (by decide)

/-- Witness for C7 at a concrete run: empty current, one risk entity. -/
theorem detector_removed_records_witness :
    (detectChanges g0 [] [criticalRiskEntity]).countP (fun r =>
      decide (r.entity_type = criticalRiskEntity.entity_type) &&
      decide (r.entity_id = criticalRiskEntity.entity_id) &&
      decide (r.change_type = "removed")) = 1 :=
  (detector_removed_records g0 [] [criticalRiskEntity] (by decide) criticalRiskEntity
    (by decide) (by decide)).1

/-! ## Claim C1: field-level modification records -/

theorem dget?_isSome_of_mem_keys {K V : Type} [DecidableEq K] (d : List (K × V)) (k : K)
    (h : k ∈ d.map Prod.fst) : (dget? d k).isSome := by
  induction d with
  | nil => simp at h
  | cons p rest ih =>
      obtain ⟨pk, pv⟩ := p
      by_cases hpk : pk = k
      · simp [hpk]
      · have h' : k ∈ rest.map Prod.fst := by
          rcases List.mem_map.mp h with ⟨x, hx, hxk⟩
          rcases List.mem_cons.mp hx with hx | hx
          · exact absurd (by rw [hx] at hxk; exact hxk) hpk
          · exact hxk ▸ List.mem_map_of_mem Prod.fst hx
        simpa [hpk] using ih h'

theorem countP_modifiedArgs_pairs (cur : List Entity)
    (pm : List ((String × String) × Entity)) (q : ChangeArgs → Bool) :
    (modifiedArgs (cur.map (fun e => (entityKey e, e))) pm).countP q =
      (cur.map (fun e =>
        match dget? pm (entityKey e) with
        | some pe => ((detectFieldChanges pe.data e.data).map (fun fc =>
            ({ entity_type := e.entity_type, entity_id := e.entity_id,
               change_type := "modified", previous_value := some [(fc.1, fc.2.1)],
               new_value := some [(fc.1, fc.2.2)],
               field_changed := some fc.1 } : ChangeArgs))).countP q
        | none => 0)).sum := by
  unfold modifiedArgs
  induction cur with
  | nil => rfl
  | cons e rest ih =>
      rw [List.map_cons, List.flatMap_cons, List.countP_append, List.map_cons,
        List.sum_cons, ih]
      congr 1
      rcases hm : dget? pm (entityKey e) with _ | pe <;> simp [hm]

/-- C1 counterexample: the entity key `(stakeholder, s1)` is present on
both sides and the non-volatile field `location` differs (`"NY"` in
previous, absent — hence `None` — in current), yet the run produces no
record at all, where the claim demands exactly one modified record for
that field. -/
theorem detector_modified_field_counterexample :
    detectChanges g0 [dropFieldCur] [dropFieldPrev] = [] ∧
    entityKey dropFieldCur = entityKey dropFieldPrev ∧
    dget? dropFieldPrev.data "location" = some (vStr "NY") ∧
    dget? dropFieldCur.data "location" = none ∧
    "location" ∉ volatileFields := by decide

/-- C1 amended: for an entity key present in both snapshots, every
non-volatile field *of the current data* whose value differs from
`previous.get(field)` produces exactly one modified record, with that
`field_changed` and with singleton payloads; a field present only in the
previous data produces no record, because the diff walks only the fields
of the current side. -/
theorem detector_modified_field_records (gen : Nat → Stamp) (cur prev : List Entity)
    (ec ep : Entity) (f : String) (v : Val)
    (hcn : (cur.map entityKey).Nodup) (hpn : (prev.map entityKey).Nodup)
    (hec : ec ∈ cur) (hep : ep ∈ prev) (hk : entityKey ec = entityKey ep)
    (hfn : (ec.data.map Prod.fst).Nodup)
    (hfv : (f, v) ∈ ec.data) (hdiff : pyGet ep.data f ≠ v) (hvol : f ∉ volatileFields) :
    ((detectChanges gen cur prev).countP (fun r =>
       decide (r.entity_type = ec.entity_type) && decide (r.entity_id = ec.entity_id) &&
       decide (r.change_type = "modified") && decide (r.field_changed = some f)) = 1 ∧
     ∀ r ∈ detectChanges gen cur prev,
       r.entity_type = ec.entity_type → r.entity_id = ec.entity_id →
       r.change_type = "modified" → r.field_changed = some f →
       r.previous_value = some [(f, pyGet ep.data f)] ∧ r.new_value = some [(f, v)]) ∧
    (∀ g : String, dget? ep.data g ≠ none → dget? ec.data g = none →
      (detectChanges gen cur prev).countP (fun r =>
        decide (r.entity_type = ec.entity_type) && decide (r.entity_id = ec.entity_id) &&
        decide (r.change_type = "modified") && decide (r.field_changed = some g)) = 0) := by
  have hcm : buildEntityMap cur = cur.map (fun e => (entityKey e, e)) :=
    buildEntityMap_eq_of_nodup cur hcn
  have hpm : buildEntityMap prev = prev.map (fun e => (entityKey e, e)) :=
    buildEntityMap_eq_of_nodup prev hpn
  have hlookup : dget? (buildEntityMap prev) (entityKey ec) = some ep := by
    rw [hpm, dget?_map_pair, hk]
    exact find?_key_of_nodup prev hpn ep hep
  refine ⟨⟨?_, ?_⟩, ?_⟩
  · rw [detectChanges,
      countP_stampList _ (fun a =>
        decide (a.entity_type = ec.entity_type) && decide (a.entity_id = ec.entity_id) &&
        decide (a.change_type = "modified") && decide (a.field_changed = some f))
        (fun st a => rfl),
      changeArgsList, List.countP_append, List.countP_append]
    have hadd : (addedArgs (buildEntityMap cur) (buildEntityMap prev)).countP
        (fun a => decide (a.entity_type = ec.entity_type) &&
          decide (a.entity_id = ec.entity_id) && decide (a.change_type = "modified") &&
          decide (a.field_changed = some f)) = 0 := by
      rw [List.countP_eq_zero]
      intro a ha
      rcases mem_addedArgs ha with ⟨p, _, _, rfl⟩
      simp
    have hrem : (removedArgs (buildEntityMap cur) (buildEntityMap prev)).countP
        (fun a => decide (a.entity_type = ec.entity_type) &&
          decide (a.entity_id = ec.entity_id) && decide (a.change_type = "modified") &&
          decide (a.field_changed = some f)) = 0 := by
      rw [List.countP_eq_zero]
      intro a ha
      rcases mem_removedArgs ha with ⟨p, _, _, rfl⟩
      simp
    have hmod : (modifiedArgs (buildEntityMap cur) (buildEntityMap prev)).countP
        (fun a => decide (a.entity_type = ec.entity_type) &&
          decide (a.entity_id = ec.entity_id) && decide (a.change_type = "modified") &&
          decide (a.field_changed = some f)) = 1 := by
      rw [hcm, countP_modifiedArgs_pairs]
      refine Eq.trans (sum_map_eq_of_unique cur _ ec hec hcn.of_map ?_) ?_
      · intro e' he' hne
        rcases hm : dget? (buildEntityMap prev) (entityKey e') with _ | pe
        · simp [hm]
        · simp only [hm]
          rw [List.countP_eq_zero]
          intro a ha
          rcases List.mem_map.mp ha with ⟨fc, _, rfl⟩
          simp only [Bool.and_eq_true, decide_eq_true_eq]
          rintro ⟨⟨⟨h1, h2⟩, _⟩, _⟩
          apply hne
          apply List.inj_on_of_nodup_map hcn he' hec
          show (e'.entity_type, e'.entity_id) = (ec.entity_type, ec.entity_id)
          rw [h1, h2]
      · simp only [hlookup]
        rw [List.countP_map, detectFieldChanges_eq_of_nodup ep.data ec.data hfn,
          List.countP_map, List.countP_filter]
        rw [List.countP_congr
          (q := fun y => decide (Prod.fst y = Prod.fst ((f, v) : String × Val)))]
        · exact countP_eq_one_of_nodup_map Prod.fst ec.data hfn (f, v) hfv
        · intro fv hfvmem
          by_cases hf1 : fv.1 = f
          · have hfveq : fv = (f, v) := List.inj_on_of_nodup_map hfn hfvmem hfv hf1
            subst hfveq
            simp [hdiff, hvol]
          · simp [hf1]
    rw [hadd, hrem, hmod]
  · intro r hr htype hid hct hfc
    rcases mem_stampList hr with ⟨st, a, ha, rfl⟩
    have htype' : a.entity_type = ec.entity_type := htype
    have hid' : a.entity_id = ec.entity_id := hid
    have hct' : a.change_type = "modified" := hct
    have hfc' : a.field_changed = some f := hfc
    rw [changeArgsList, List.append_assoc] at ha
    rcases List.mem_append.mp ha with ha | ha
    · rcases mem_addedArgs ha with ⟨p, _, _, rfl⟩
      exact absurd (show ("added" : String) = "modified" from hct') (by decide)
    · rcases List.mem_append.mp ha with ha | ha
      · rcases mem_removedArgs ha with ⟨p, _, _, rfl⟩
        exact absurd (show ("removed" : String) = "modified" from hct') (by decide)
      · rcases mem_modifiedArgs ha with ⟨p, hp, pe, hpe, fc, hfcmem, rfl⟩
        rw [hcm] at hp
        rcases List.mem_map.mp hp with ⟨e', he', rfl⟩
        have h1 : e'.entity_type = ec.entity_type := htype'
        have h2 : e'.entity_id = ec.entity_id := hid'
        have hee : e' = ec := by
          apply List.inj_on_of_nodup_map hcn he' hec
          show (e'.entity_type, e'.entity_id) = (ec.entity_type, ec.entity_id)
          rw [h1, h2]
        subst hee
        have hpe2 : dget? (buildEntityMap prev) (entityKey e') = some pe := hpe
        rw [hlookup] at hpe2
        have hpe' : pe = ep := by
          injection hpe2 with h
          exact h.symm
        subst hpe'
        have hf1 : fc.1 = f := by
          have h3 : (some fc.1 : Option String) = some f := hfc'
          injection h3
        rw [detectFieldChanges_eq_of_nodup pe.data e'.data hfn] at hfcmem
        rcases List.mem_map.mp hfcmem with ⟨fv, hfvmem, rfl⟩
        rcases List.mem_filter.mp hfvmem with ⟨hfvdata, _⟩
        have hfveq : fv = (f, v) := by
          apply List.inj_on_of_nodup_map hfn hfvdata hfv
          exact hf1
        subst hfveq
        exact ⟨rfl, rfl⟩
  · intro g hgp hgc
    rw [detectChanges,
      countP_stampList _ (fun a =>
        decide (a.entity_type = ec.entity_type) && decide (a.entity_id = ec.entity_id) &&
        decide (a.change_type = "modified") && decide (a.field_changed = some g))
        (fun st a => rfl),
      List.countP_eq_zero]
    intro a ha
    rw [changeArgsList, List.append_assoc] at ha
    rcases List.mem_append.mp ha with ha | ha
    · rcases mem_addedArgs ha with ⟨p, _, _, rfl⟩
      simp
    · rcases List.mem_append.mp ha with ha | ha
      · rcases mem_removedArgs ha with ⟨p, _, _, rfl⟩
        simp
      · rcases mem_modifiedArgs ha with ⟨p, hp, pe, hpe, fc, hfcmem, rfl⟩
        rw [hcm] at hp
        rcases List.mem_map.mp hp with ⟨e', he', rfl⟩
        simp only [Bool.and_eq_true, decide_eq_true_eq, Option.some.injEq]
        rintro ⟨⟨⟨h1, h2⟩, _⟩, hfg⟩
        have hee : e' = ec := by
          apply List.inj_on_of_nodup_map hcn he' hec
          show (e'.entity_type, e'.entity_id) = (ec.entity_type, ec.entity_id)
          rw [h1, h2]
        subst hee
        have hkeys : fc.1 ∈ e'.data.map Prod.fst :=
          fst_mem_of_mem_detectFieldChanges pe.data e'.data fc hfcmem
        rw [hfg] at hkeys
        have hsome := dget?_isSome_of_mem_keys e'.data g hkeys
        rw [hgc] at hsome
        simp at hsome

/-- Witness for C1 amended at a concrete run: the role change from
Intern to CEO. -/
theorem detector_modified_field_records_witness :
    (detectChanges g0 [roleChangeCur] [roleChangePrev]).countP (fun r =>
      decide (r.entity_type = roleChangeCur.entity_type) &&
      decide (r.entity_id = roleChangeCur.entity_id) &&
      decide (r.change_type = "modified") && decide (r.field_changed = some "role")) = 1 :=
  ((detector_modified_field_records g0 [roleChangeCur] [roleChangePrev]
    roleChangeCur roleChangePrev "role" (vStr "CEO")
    (by decide) (by decide) (by decide) (by decide) (by decide) (by decide)
    (by decide) (by decide) (by decide)).1).1

/-! ## Claim C2: malformed entities -/

/-- C2 counterexample: an entity missing `data` aborts the whole run
with `KeyError: data` instead of being treated as an empty field set,
and an entity missing `entity_type` aborts map building with
`KeyError: entity_type` instead of being excluded from the comparison. -/
theorem malformed_entity_counterexample :
    detectChangesE g0 [rawMissingData] [] = Except.error "KeyError: data" ∧
    detectChangesE g0 [rawMissingType] [] = Except.error "KeyError: entity_type" :=
  ⟨rfl, rfl⟩

theorem buildEntityMapE_error (es : List RawEntity) (e : RawEntity) (he : e ∈ es)
    (hmal : e.entity_type = none ∨ e.entity_id = none) :
    ∃ msg, buildEntityMapE es = Except.error msg := by
  unfold buildEntityMapE
  suffices haux : ∀ (l : List RawEntity) (acc : List ((String × String) × RawEntity)),
      e ∈ l →
      ∃ msg, (List.foldlM (fun m e => do
        let t ← getItem e.entity_type "entity_type"
        let i ← getItem e.entity_id "entity_id"
        pure (dinsert m (t, i) e)) acc l : Except String _) = Except.error msg from
    haux es [] he
  intro l
  induction l with
  | nil => intro acc h; simp at h
  | cons h t ih =>
      intro acc hel
      rw [List.foldlM_cons]
      rcases List.mem_cons.mp hel with hel | hel
      · subst hel
        rcases hmal with hm | hm
        · exact ⟨"KeyError: entity_type", by rw [hm]; rfl⟩
        · rcases ht : e.entity_type with _ | tv
          · exact ⟨"KeyError: entity_type", rfl⟩
          · exact ⟨"KeyError: entity_id", by rw [hm]; rfl⟩
      · rcases hstep : getItem h.entity_type "entity_type" with msg | tv
        · exact ⟨msg, rfl⟩
        · rcases hstep2 : getItem h.entity_id "entity_id" with msg | iv
          · exact ⟨msg, rfl⟩
          · rcases ih (dinsert acc (tv, iv) h) hel with ⟨msg, hmsg⟩
            exact ⟨msg, hmsg⟩

/-- C2 amended: `detect_changes` is not tolerant of malformed entities:
an entity of the current collection missing `entity_type` or `entity_id`
makes the whole run abort with a `KeyError` while building the entity
map (no warn-and-skip path exists), and an entity missing `data` aborts
the run at the first record created from it. -/
theorem malformed_entity_aborts (gen : Nat → Stamp) (cur prev : List RawEntity)
    (e : RawEntity) (he : e ∈ cur)
    (hmal : e.entity_type = none ∨ e.entity_id = none) :
    exceptIsError (detectChangesE gen cur prev) = true := by
  rcases buildEntityMapE_error cur e he hmal with ⟨msg, hmsg⟩
  rw [detectChangesE, hmsg]
  rfl

/-- Witness for C2 amended at a concrete input: the entity missing
`entity_type`. -/
theorem malformed_entity_aborts_witness :
    exceptIsError (detectChangesE g0 [rawMissingType] []) = true :=
  malformed_entity_aborts g0 [rawMissingType] [] rawMissingType (by decide) (by decide)

/-! ## Claim C8: alert deduplication -/

theorem mem_processChanges {th w now : Int} {ok : ChangeRecord → Bool}
    {changes : List ChangeRecord} {hist : List AlertHistoryRecord} {a : AlertMessage}
    (h : a ∈ processChanges th w now ok changes hist) :
    ∃ c ∈ changes, a = formatAlert now c ∧ ¬ c.significance_score < th ∧
      isDuplicate w now c hist = false ∧ ok c = true := by
  induction changes with
  | nil => simp [processChanges] at h
  | cons c rest ih =>
      rw [processChanges] at h
      by_cases h1 : c.significance_score < th
      · rw [if_pos h1] at h
        rcases ih h with ⟨c', hc', ha⟩
        exact ⟨c', List.mem_cons_of_mem _ hc', ha⟩
      · rw [if_neg h1] at h
        by_cases h2 : isDuplicate w now c hist = true
        · rw [if_pos h2] at h
          rcases ih h with ⟨c', hc', ha⟩
          exact ⟨c', List.mem_cons_of_mem _ hc', ha⟩
        · rw [if_neg h2] at h
          by_cases h3 : ok c = true
          · rw [if_pos h3] at h
            rcases List.mem_cons.mp h with h | h
            · exact ⟨c, List.mem_cons_self _ _, h, h1, Bool.not_eq_true _ ▸ h2, h3⟩
            · rcases ih h with ⟨c', hc', ha⟩
              exact ⟨c', List.mem_cons_of_mem _ hc', ha⟩
          · rw [if_neg h3] at h
            rcases ih h with ⟨c', hc', ha⟩
            exact ⟨c', List.mem_cons_of_mem _ hc', ha⟩

theorem isDuplicate_true_of (w now : Int) (c : ChangeRecord)
    (hist : List AlertHistoryRecord)
    (h : (∃ a ∈ hist, a.change_id = some c.change_id) ∨
         (∃ a ∈ hist, ∃ t, a.alert_timestamp = some t ∧ now - w * 3600 < t ∧
            a.entity_type = some c.entity_type ∧ a.entity_id = some c.entity_id ∧
            a.change_type = some c.change_type)) :
    isDuplicate w now c hist = true := by
  rcases h with ⟨a, ha, hid⟩ | ⟨a, ha, t, hts, hcut, h1, h2, h3⟩
  · have hcond : hist.any (fun a => decide (a.change_id = some c.change_id)) = true :=
      List.any_eq_true.mpr ⟨a, ha, by simp [hid]⟩
    rw [isDuplicate, if_pos hcond]
  · by_cases hfirst : hist.any (fun a => decide (a.change_id = some c.change_id)) = true
    · rw [isDuplicate, if_pos hfirst]
    · rw [isDuplicate, if_neg hfirst]
      apply List.any_eq_true.mpr
      refine ⟨a, ha, ?_⟩
      rw [hts]
      simp only [Bool.and_eq_true, decide_eq_true_eq]
      exact ⟨by omega, ⟨h1, h2⟩, h3⟩

/-- C8: the alert manager sends no alert for a change whose `change_id`
already appears in the alert history (at any age), nor for a change
matching some history entry on the `(entity_type, entity_id,
change_type)` triple whose alert timestamp lies inside the dedup window;
the returned list contains no alert carrying that change's id. -/
theorem alert_manager_dedup_skips (th w now : Int) (ok : ChangeRecord → Bool)
    (changes : List ChangeRecord) (hist : List AlertHistoryRecord) (c : ChangeRecord)
    (hc : c ∈ changes)
    (huniq : ∀ c' ∈ changes, c'.change_id = c.change_id → c' = c)
    (hdup : (∃ a ∈ hist, a.change_id = some c.change_id) ∨
            (∃ a ∈ hist, ∃ t, a.alert_timestamp = some t ∧ now - w * 3600 < t ∧
               a.entity_type = some c.entity_type ∧ a.entity_id = some c.entity_id ∧
               a.change_type = some c.change_type)) :
    (processChanges th w now ok changes hist).all
      (fun a => a.change_id != c.change_id) = true := by
  rw [List.all_eq_true]
  intro a ha
  rcases mem_processChanges ha with ⟨c', hc', haeq, _, hdupf, _⟩
  subst haeq
  simp only [bne_iff_ne, ne_eq]
  intro heq
  have heq' : c'.change_id = c.change_id := heq
  have hcc : c' = c := huniq c' hc' heq'
  subst hcc
  rw [isDuplicate_true_of w now c' hist hdup] at hdupf
  exact absurd hdupf (by decide)

/-- Witness for C8 at a concrete input: a history entry already carries
the change id of the CEO-added record. -/
theorem alert_manager_dedup_skips_witness :
    (processChanges defaultSignificanceThreshold defaultDedupWindowHours 1000
      (fun _ => true) [ceoAddedRecord] [ceoHistoryEntry]).all
      (fun a => a.change_id != ceoAddedRecord.change_id) = true :=
  alert_manager_dedup_skips defaultSignificanceThreshold defaultDedupWindowHours 1000
    (fun _ => true) [ceoAddedRecord] [ceoHistoryEntry] ceoAddedRecord
    (by decide) (by decide) (Or.inl (by decide))
